import Mathlib

/-
Verification of the beets importer core (src/beets/importer.py) against its
natural-language specification. The Python module is shallowly embedded:

* Python exceptions are modelled with `Except PyErr`; a failed `assert`
  becomes `PyErr.assertionError`, reading a never-assigned `__slots__`
  attribute becomes `PyErr.attributeError`, iterating `None` becomes
  `PyErr.typeError`, and so on.
* External collaborators (the matching engine, `Item.move`, `os.path.realpath`,
  the art fetcher, the per-root directory walk `autotag.albums_in_dir`,
  `os.path.isdir`, and the interactive prompt) are parameters of the
  corresponding stage functions.
* The coroutine stages are modelled by their per-task step functions; the
  scanner generator `read_albums` is modelled as a function producing the
  full finite list of yielded tasks.
* `CommitStage` (`apply_choices`) is modelled as a function from a task to the
  ordered list of side effects it performs (file moves, tag writes, collection
  inserts, event emissions, file removals, progress checkpoints).
* Path normalisation helpers (`library._normpath`, `os.path.expanduser`,
  `library._syspath`) are identity at this level of abstraction and are
  dropped.
* Mutable `__slots__` fields of `ImportTask` are `Option`-valued. For
  `choice_flag` (which the code never assigns `None`) `none` means the slot
  was never assigned, so a read of `none` is an `AttributeError`. For the
  match fields and `info`, a stored Python `None` and a never-assigned slot
  are conflated as `none`: no claim distinguishes them, since every code path
  that reads them runs after the corresponding setter.
-/

namespace Beets

/-- Python-level failures the importer code can raise. -/
inductive PyErr
  | attributeError
  | assertionError
  | unpicklingError
  | keyError
  | typeError
  | userError
  deriving DecidableEq, Repr

/-- A media item; only its file path is relevant to the importer core. -/
structure Item where
  path : String
  deriving DecidableEq, Repr

/-- A candidate metadata dictionary, restricted to the keys the importer
reads (`info['artist']`, `info['album']`). A Python `None` value is `none`. -/
structure AlbumInfo where
  artist : Option String
  album : Option String
  deriving DecidableEq, Repr

/-- Ranked candidate list returned by the matching engine (its elements are
never inspected by this core). -/
abbrev Candidates := List AlbumInfo

/-- Recommendation signal returned by the matching engine (never inspected
by this core). -/
abbrev Recommendation := String

/-- An album row of the collection store, restricted to the fields
`_duplicate_check` reads. -/
structure LibAlbum where
  artist : String
  album : String
  deriving DecidableEq, Repr

/-- The collection store, as the list of album rows it holds. -/
abbrev Library := List LibAlbum

/-- External collection-store query `lib.albums(artist)`: the albums whose
artist equals the given artist (spec 6: queryAlbumsByArtist). -/
def albumsBy (lib : Library) (artist : String) : List LibAlbum :=
  lib.filter (fun cand => decide (cand.artist = artist))

/-- Embedding of `_duplicate_check(lib, artist, album)` (importer.py 72-81):
`None` artist short-circuits to `False`; otherwise scan the albums by that
artist for one whose `album` field equals `album` (Python `==`, so a `None`
`album` matches nothing). -/
def duplicate_check (lib : Library) (artist : Option String)
    (album : Option String) : Bool :=
  match artist with
  | none => false
  | some a => (albumsBy lib a).any (fun cand => decide (some cand.album = album))

/-- The persisted beets state file as `progress_get`/`progress_set` see it:
absent (`open` raises `IOError`), unreadable (`pickle.load` raises), readable
but missing the `tagprogress` key (dict indexing raises `KeyError`), or
readable with the progress mapping. -/
inductive StateFile
  | missing
  | corrupt
  | noProgressKey
  | withMap (m : List (String × String))
  deriving DecidableEq, Repr

/-- Python `del state[PROGRESS_KEY][toppath]` guarded by an `in` check:
drop the key if present. -/
def mapErase (m : List (String × String)) (k : String) :
    List (String × String) :=
  m.filter (fun kv => decide (kv.1 ≠ k))

/-- Python `state[PROGRESS_KEY][toppath] = path`: (re)bind the key. -/
def mapSet (m : List (String × String)) (k v : String) :
    List (String × String) :=
  mapErase m k ++ [(k, v)]

/-- Embedding of `progress_set(toppath, path)` (importer.py 86-105): read the
whole state file (a missing file — `IOError` — is replaced by a fresh state
dict; an unpicklable file raises; a state dict without the progress key
raises `KeyError` at the dict indexing), then either delete the root's entry
(`path is None`) or rebind it, and rewrite the whole file. -/
def progress_set (file : StateFile) (toppath : String) (path : Option String) :
    Except PyErr StateFile := do
  let m ← match file with
    | StateFile.missing => Except.ok ([] : List (String × String))
    | StateFile.corrupt => Except.error PyErr.unpicklingError
    | StateFile.noProgressKey => Except.error PyErr.keyError
    | StateFile.withMap m => Except.ok m
  match path with
  | none => Except.ok (StateFile.withMap (mapErase m toppath))
  | some p => Except.ok (StateFile.withMap (mapSet m toppath p))

/-- Embedding of `progress_get(toppath)` (importer.py 106-115): a missing
file — `IOError` — yields `None`; an unpicklable file raises; a state dict
without the progress key raises `KeyError`; otherwise
`state[PROGRESS_KEY].get(toppath)`. -/
def progress_get (file : StateFile) (toppath : String) :
    Except PyErr (Option String) :=
  match file with
  | StateFile.missing => Except.ok none
  | StateFile.corrupt => Except.error PyErr.unpicklingError
  | StateFile.noProgressKey => Except.error PyErr.keyError
  | StateFile.withMap m => Except.ok (m.lookup toppath)

/-- The five `CHOICE_*` string constants (importer.py 31-35). -/
inductive CFlag
  | SKIP
  | ASIS
  | TRACKS
  | MANUAL
  | ALBUM
  deriving DecidableEq, Repr

/-- The argument of `set_choice`: either one of the `CHOICE_*` constants or
an `(info, items)` tuple. -/
inductive ChoiceInput
  | const (c : CFlag)
  | pair (info : AlbumInfo) (items : List Item)
  deriving DecidableEq, Repr

/-- Embedding of `ImportTask` (importer.py 120-214). All `__slots__` fields
are present; `choice_flag = none` means the slot was never assigned (reading
it raises `AttributeError`). -/
structure ImportTask where
  toppath : String
  path : Option String
  items : Option (List Item)
  sentinel : Bool
  cur_artist : Option String
  cur_album : Option String
  candidates : Option Candidates
  recommendation : Option Recommendation
  choice_flag : Option CFlag
  info : Option AlbumInfo
  deriving DecidableEq, Repr

/-- `ImportTask.__init__(toppath, path=None, items=None)`: the three stored
fields plus `sentinel = False`; the remaining slots start unassigned. -/
def ImportTask.init (toppath : String) (path : Option String)
    (items : Option (List Item)) : ImportTask :=
  { toppath := toppath, path := path, items := items, sentinel := false,
    cur_artist := none, cur_album := none, candidates := none,
    recommendation := none, choice_flag := none, info := none }

/-- `ImportTask.done_sentinel(toppath)`: a fresh task with `sentinel = True`. -/
def ImportTask.done_sentinel (toppath : String) : ImportTask :=
  { ImportTask.init toppath none none with sentinel := true }

/-- `ImportTask.set_match` (importer.py 142-149): asserts the task is not a
sentinel, then assigns the four match fields. -/
def ImportTask.set_match (t : ImportTask) (cur_artist cur_album : Option String)
    (candidates : Option Candidates) (recommendation : Option Recommendation) :
    Except PyErr ImportTask :=
  if t.sentinel then Except.error PyErr.assertionError
  else Except.ok { t with cur_artist := cur_artist, cur_album := cur_album,
                          candidates := candidates,
                          recommendation := recommendation }

/-- `ImportTask.set_null_match` (importer.py 151-153): `set_match` with four
`None`s. -/
def ImportTask.set_null_match (t : ImportTask) : Except PyErr ImportTask :=
  t.set_match none none none none

/-- `ImportTask.set_choice` (importer.py 155-172): asserts the task is not a
sentinel and the argument is neither `CHOICE_MANUAL` nor `CHOICE_ALBUM`; a
`SKIP`/`ASIS`/`TRACKS` constant is stored in `choice_flag` with `info = None`
(`SKIP` additionally discards `items`); an `(info, items)` tuple stores the
items and info and records the implicit `CHOICE_ALBUM` flag. -/
def ImportTask.set_choice (t : ImportTask) (choice : ChoiceInput) :
    Except PyErr ImportTask :=
  if t.sentinel then Except.error PyErr.assertionError
  else
    match choice with
    | ChoiceInput.const CFlag.MANUAL => Except.error PyErr.assertionError
    | ChoiceInput.const CFlag.ALBUM => Except.error PyErr.assertionError
    | ChoiceInput.const CFlag.SKIP =>
        Except.ok { t with choice_flag := some CFlag.SKIP, info := none,
                           items := none }
    | ChoiceInput.const CFlag.ASIS =>
        Except.ok { t with choice_flag := some CFlag.ASIS, info := none }
    | ChoiceInput.const CFlag.TRACKS =>
        Except.ok { t with choice_flag := some CFlag.TRACKS, info := none }
    | ChoiceInput.pair i its =>
        Except.ok { t with items := some its, info := some i,
                           choice_flag := some CFlag.ALBUM }

/-- `ImportTask.should_create_album` (importer.py 183-190). Reading an
unassigned `choice_flag` slot raises `AttributeError`; a flag outside the
two tested tuples hits `assert False`. -/
def ImportTask.should_create_album (t : ImportTask) : Except PyErr Bool :=
  match t.choice_flag with
  | none => Except.error PyErr.attributeError
  | some f =>
    if f = CFlag.ALBUM ∨ f = CFlag.ASIS then Except.ok true
    else if f = CFlag.TRACKS ∨ f = CFlag.SKIP then Except.ok false
    else Except.error PyErr.assertionError

/-- `ImportTask.should_write_tags` (importer.py 191-198). -/
def ImportTask.should_write_tags (t : ImportTask) : Except PyErr Bool :=
  match t.choice_flag with
  | none => Except.error PyErr.attributeError
  | some f =>
    if f = CFlag.ALBUM then Except.ok true
    else if f = CFlag.ASIS ∨ f = CFlag.TRACKS ∨ f = CFlag.SKIP then
      Except.ok false
    else Except.error PyErr.assertionError

/-- `ImportTask.should_fetch_art` (importer.py 199-201): literally
`should_write_tags`. -/
def ImportTask.should_fetch_art (t : ImportTask) : Except PyErr Bool :=
  t.should_write_tags

/-- `ImportTask.should_infer_aa` (importer.py 202-214): asserts
`should_create_album()` (propagating its own failures), then `ALBUM` means
`False`, `ASIS` means `True`, anything else hits `assert False`. -/
def ImportTask.should_infer_aa (t : ImportTask) : Except PyErr Bool := do
  let ca ← t.should_create_album
  if !ca then Except.error PyErr.assertionError
  else
    match t.choice_flag with
    | some CFlag.ALBUM => Except.ok false
    | some CFlag.ASIS => Except.ok true
    | _ => Except.error PyErr.assertionError

/-- The argument `save_progress` passes to `progress_set` (importer.py
174-181): `None` for a sentinel (clear the root's progress), otherwise the
task's subpath. -/
def ImportTask.progressArg (t : ImportTask) : Option String :=
  if t.sentinel then none else t.path

/-- Python truthiness of the `resume_dir` variable in `read_albums`: a
non-`None`, non-empty string. -/
def optTruthy : Option String → Bool
  | none => false
  | some s => decide (s ≠ "")

/-- The fast-forward loop body of `read_albums` (importer.py 261-270): while
`resume_dir` is truthy, each walked directory is discarded; the directory
whose path equals `resume_dir` clears it (and is itself discarded); once it
is cleared the remaining directories are kept. -/
def fastForward (resume_dir : Option String)
    (dirs : List (String × List Item)) : List (String × List Item) :=
  match dirs with
  | [] => []
  | d :: rest =>
    if optTruthy resume_dir then
      if some d.1 = resume_dir then fastForward none rest
      else fastForward resume_dir rest
    else d :: fastForward resume_dir rest

/-- The `do_resume` resolution of `read_albums` (importer.py 241-248):
accept silently when `resume` is `True`, otherwise prompt. `resume` is
`some true`/`some false`/`none` for Python `True`/`False`/`None`. -/
def resolveResume (resume : Option Bool) (ask : String → Bool)
    (p : String) : Bool :=
  match resume with
  | some true => true
  | _ => ask p

/-- The resume-lookup loop of `read_albums` (importer.py 235-255), threading
the state file: for each root with a truthy recorded progress subpath, either
record it in `resume_dirs` (when `do_resume` holds) or clear the root's
stored progress (prompt declined). This loop only runs when `resume` is not
`some false`. -/
def buildResume (resume : Option Bool) (ask : String → Bool) :
    List String → StateFile →
    Except PyErr (List (String × String) × StateFile)
  | [], file => Except.ok ([], file)
  | p :: rest, file => do
    let rd ← progress_get file p
    if optTruthy rd then
      match rd with
      | some r =>
        if resolveResume resume ask p then do
          let pr ← buildResume resume ask rest file
          Except.ok ((p, r) :: pr.1, pr.2)
        else do
          let f1 ← progress_set file p none
          buildResume resume ask rest f1
      | none => buildResume resume ask rest file
    else buildResume resume ask rest file

/-- Embedding of the generator `read_albums(paths, resume)` (importer.py
219-273) as the full list of yielded tasks plus the final state file.
External parameters: `isdir` (`os.path.isdir`), `walk`
(`autotag.albums_in_dir`, the ordered `(path, items)` enumeration under a
root) and `ask` (`ui.input_yn`). Path normalisation is identity here. A
non-directory root raises a usage error; with `resume = some false` the
progress block is skipped entirely; otherwise resume directories are
resolved per root and each root's walk is fast-forwarded past the recorded
subpath, followed by the root's sentinel task. -/
def read_albums (isdir : String → Bool)
    (walk : String → List (String × List Item)) (ask : String → Bool)
    (file : StateFile) (paths : List String) (resume : Option Bool) :
    Except PyErr (List ImportTask × StateFile) :=
  if !(paths.all isdir) then Except.error PyErr.userError
  else
    let progress := resume ≠ some false
    let build :=
      if progress then buildResume resume ask paths file
      else Except.ok ([], file)
    match build with
    | Except.error e => Except.error e
    | Except.ok (resume_dirs, file1) =>
      let tasks := paths.flatMap (fun top =>
        let rd := if progress then resume_dirs.lookup top else none
        (fastForward rd (walk top)).map
          (fun d => ImportTask.init top (some d.1) (some d.2))
        ++ [ImportTask.done_sentinel top])
      Except.ok (tasks, file1)

/-- The tuple returned by `autotag.tag_album`
(`cur_artist, cur_album, candidates, rec`). -/
abbrev MatchResult :=
  Option String × Option String × Option Candidates × Option Recommendation

/-- One step of the `initial_lookup` coroutine (importer.py 275-292) on a
received task. `engine` is the external `autotag.tag_album`; `Except.error`
models `autotag.AutotagError`. A sentinel is yielded back untouched;
otherwise the engine's result is recorded with `set_match`, and an engine
failure is converted to a null match instead of propagating. -/
def initial_lookup_step
    (engine : Option (List Item) → Except Unit MatchResult)
    (task : ImportTask) : Except PyErr ImportTask :=
  if task.sentinel then Except.ok task
  else
    match engine task.items with
    | Except.ok (a, b, c, r) => task.set_match a b c r
    | Except.error _ => task.set_null_match

/-- One step of the `user_query` coroutine (importer.py 294-338) on a
received task, with the external prompt's answer (`commands.choose_match`)
passed in as `choice`. Printing and activity logging are pure output and are
not modelled. A sentinel passes through untouched; otherwise the choice is
recorded with `set_choice`, and when the choice is `CHOICE_ASIS` or an
`(info, items)` tuple the resulting (artist, album) pair is checked against
the collection; on a duplicate hit the choice is overridden to
`CHOICE_SKIP` by a second `set_choice` call. -/
def user_query_step (lib : Library) (task : ImportTask)
    (choice : ChoiceInput) : Except PyErr ImportTask :=
  if task.sentinel then Except.ok task
  else do
    let t1 ← task.set_choice choice
    let dup :=
      match choice with
      | ChoiceInput.const CFlag.ASIS =>
          duplicate_check lib t1.cur_artist t1.cur_album
      | ChoiceInput.pair i _ => duplicate_check lib i.artist i.album
      | _ => false
    if dup then t1.set_choice (ChoiceInput.const CFlag.SKIP)
    else Except.ok t1

/-- The flag parameters of `apply_choices(lib, copy, write, art, delete,
progress)`. -/
structure CommitCfg where
  copy : Bool
  write : Bool
  art : Bool
  delete : Bool
  progress : Bool
  deriving DecidableEq, Repr

/-- External collaborators of the commit stage: `moveItem inAlbum item`
abstracts `item.move(lib, True, inAlbum)` (the item with its post-move
path), `realpath` abstracts `os.path.realpath`, and `artForAlbum` abstracts
`beets.autotag.art.art_for_album`. -/
structure CommitExt where
  moveItem : Bool → Item → Item
  realpath : String → String
  artForAlbum : Option AlbumInfo → Option String

/-- One observable side effect of the commit stage, in program order. -/
inductive Effect
  | applyMetadata
  | moveFile (src dst : String)
  | writeTags (path : String)
  | addAlbum (paths : List String) (inferAA : Bool)
  | addItem (path : String)
  | setArt (artpath : String)
  | saveLib
  | sendAlbumImported
  | sendItemImported (path : String)
  | removeFile (path : String)
  | saveProgress (toppath : String) (subpath : Option String)
  deriving DecidableEq, Repr

/-- One step of the `apply_choices` coroutine (importer.py 340-404) on a
received task, as the ordered list of side effects it performs. The guard on
line 350 evaluates `task.choice_flag == CHOICE_SKIP` before `task.sentinel`,
so it reads the `choice_flag` slot even for sentinels, for which it was
never assigned. The fast path only checkpoints progress. The main path:
apply metadata when tags are to be written; with copy-and-delete, snapshot
the items' real paths; per item, move (when copying) and write tags (when
enabled and called for); insert an album or individual tracks; fetch and set
art when enabled and called for; persist the store; emit the lifecycle
event(s); remove each snapshotted old path not among the post-move real
paths; checkpoint progress. -/
def apply_choices_step (cfg : CommitCfg) (ext : CommitExt)
    (task : ImportTask) : Except PyErr (List Effect) := do
  let skipOrDone ←
    match task.choice_flag with
    | none => Except.error PyErr.attributeError
    | some f => Except.ok (f = CFlag.SKIP || task.sentinel)
  if skipOrDone then
    Except.ok (if cfg.progress then
      [Effect.saveProgress task.toppath task.progressArg] else [])
  else do
    let wt ← task.should_write_tags
    let e1 := if wt then [Effect.applyMetadata] else []
    let items ← match task.items with
      | none => Except.error PyErr.typeError
      | some its => Except.ok its
    let old_paths :=
      if cfg.copy && cfg.delete then items.map (fun i => ext.realpath i.path)
      else []
    let ca ← task.should_create_album
    let moved := if cfg.copy then items.map (ext.moveItem ca) else items
    let e2 := items.flatMap (fun i =>
      (if cfg.copy then [Effect.moveFile i.path (ext.moveItem ca i).path]
       else []) ++
      (if cfg.write && wt then
        [Effect.writeTags (if cfg.copy then (ext.moveItem ca i).path
                           else i.path)]
       else []))
    let e3 ←
      if ca then do
        let inferAA ← task.should_infer_aa
        Except.ok [Effect.addAlbum (moved.map Item.path) inferAA]
      else Except.ok (moved.map (fun i => Effect.addItem i.path))
    let e4 ←
      if cfg.art then do
        let fa ← task.should_fetch_art
        Except.ok (if fa then
          match ext.artForAlbum task.info with
          | some ap => [Effect.setArt ap]
          | none => []
        else [])
      else Except.ok []
    let e6 :=
      if ca then [Effect.sendAlbumImported]
      else moved.map (fun i => Effect.sendItemImported i.path)
    let e7 :=
      if cfg.copy && cfg.delete then
        let new_paths := moved.map (fun i => ext.realpath i.path)
        (old_paths.filter (fun p => decide (p ∉ new_paths))).map
          Effect.removeFile
      else []
    let e8 :=
      if cfg.progress then
        [Effect.saveProgress task.toppath task.progressArg]
      else []
    Except.ok (e1 ++ e2 ++ e3 ++ e4 ++ [Effect.saveLib] ++ e6 ++ e7 ++ e8)

/-- The file paths removed by a commit-stage effect trace. -/
def removals (es : List Effect) : List String :=
  es.filterMap (fun e =>
    match e with
    | Effect.removeFile p => some p
    | _ => none)

/- Helper lemmas. -/

theorem except_bind_ok {ε α β : Type} (a : α) (f : α → Except ε β) :
    (Except.ok a : Except ε α) >>= f = f a := rfl

theorem mem_removals (es : List Effect) (p : String) :
    p ∈ removals es ↔ Effect.removeFile p ∈ es := by
  simp only [removals, List.mem_filterMap]
  constructor
  · rintro ⟨e, he, hp⟩
    cases e <;> simp_all
  · intro h
    exact ⟨Effect.removeFile p, h, rfl⟩

theorem duplicate_check_eq_true_iff (lib : Library) (a : String)
    (alb : Option String) :
    duplicate_check lib (some a) alb = true ↔
      ∃ cand ∈ lib, cand.artist = a ∧ some cand.album = alb := by
  simp only [duplicate_check, albumsBy, List.any_eq_true, List.mem_filter,
    decide_eq_true_eq]
  constructor
  · rintro ⟨cand, ⟨hmem, hart⟩, halb⟩
    exact ⟨cand, hmem, hart, halb⟩
  · rintro ⟨cand, hmem, hart, halb⟩
    exact ⟨cand, ⟨hmem, hart⟩, halb⟩

theorem lookup_mapErase (m : List (String × String)) (k : String) :
    (mapErase m k).lookup k = none := by
  induction m with
  | nil => rfl
  | cons kv rest ih =>
    obtain ⟨k1, v1⟩ := kv
    by_cases h : k1 = k
    · simpa [mapErase, h] using ih
    · have hk : (k == k1) = false := by
        simp only [beq_eq_false_iff_ne]
        exact Ne.symm h
      rw [mapErase, List.filter_cons_of_pos (by simpa using h), List.lookup, hk]
      exact ih

theorem fastForward_nil_resume (dirs : List (String × List Item)) :
    fastForward none dirs = dirs := by
  induction dirs with
  | nil => rfl
  | cons d rest ih => simp [fastForward, optTruthy, ih]

theorem fastForward_eq_drop (P : String) (hP : P ≠ "")
    (dirs : List (String × List Item)) (hmem : P ∈ dirs.map Prod.fst) :
    fastForward (some P) dirs =
      dirs.drop (dirs.findIdx (fun d => decide (d.1 = P)) + 1) := by
  induction dirs with
  | nil => simp at hmem
  | cons d rest ih =>
    by_cases hd : d.1 = P
    · simp [fastForward, optTruthy, hP, hd, fastForward_nil_resume,
        List.findIdx_cons]
    · have hmem' : P ∈ rest.map Prod.fst := by
        simp only [List.map_cons, List.mem_cons] at hmem
        rcases hmem with h | h
        · exact absurd h.symm hd
        · exact h
      simp [fastForward, optTruthy, hP, hd, ih hmem', List.findIdx_cons]

theorem removals_nil : removals [] = [] := rfl

theorem removals_append (a b : List Effect) :
    removals (a ++ b) = removals a ++ removals b := by
  simp [removals, List.filterMap_append]

theorem removals_cons_applyMetadata (es : List Effect) :
    removals (Effect.applyMetadata :: es) = removals es := rfl

theorem removals_cons_moveFile (a b : String) (es : List Effect) :
    removals (Effect.moveFile a b :: es) = removals es := rfl

theorem removals_cons_writeTags (p : String) (es : List Effect) :
    removals (Effect.writeTags p :: es) = removals es := rfl

theorem removals_cons_addAlbum (ps : List String) (aa : Bool)
    (es : List Effect) :
    removals (Effect.addAlbum ps aa :: es) = removals es := rfl

theorem removals_cons_addItem (p : String) (es : List Effect) :
    removals (Effect.addItem p :: es) = removals es := rfl

theorem removals_cons_setArt (p : String) (es : List Effect) :
    removals (Effect.setArt p :: es) = removals es := rfl

theorem removals_cons_saveLib (es : List Effect) :
    removals (Effect.saveLib :: es) = removals es := rfl

theorem removals_cons_sendAlbumImported (es : List Effect) :
    removals (Effect.sendAlbumImported :: es) = removals es := rfl

theorem removals_cons_sendItemImported (p : String) (es : List Effect) :
    removals (Effect.sendItemImported p :: es) = removals es := rfl

theorem removals_cons_saveProgress (tp : String) (sp : Option String)
    (es : List Effect) :
    removals (Effect.saveProgress tp sp :: es) = removals es := rfl

theorem removals_cons_removeFile (p : String) (es : List Effect) :
    removals (Effect.removeFile p :: es) = p :: removals es := rfl

theorem removals_flatMap {α : Type} (l : List α) (g : α → List Effect) :
    removals (l.flatMap g) = l.flatMap (fun a => removals (g a)) := by
  induction l with
  | nil => rfl
  | cons x xs ih => simp [List.flatMap_cons, removals_append, ih]

theorem flatMap_const_nil {α β : Type} (l : List α) :
    (l.flatMap fun _ => ([] : List β)) = [] := by
  induction l with
  | nil => rfl
  | cons x xs ih => simp [List.flatMap_cons, ih]

theorem removals_map_addItem {α : Type} (l : List α) (g : α → String) :
    removals (l.map (fun x => Effect.addItem (g x))) = [] := by
  induction l with
  | nil => rfl
  | cons x xs ih => simpa [removals_cons_addItem] using ih

theorem removals_map_sendItemImported {α : Type} (l : List α)
    (g : α → String) :
    removals (l.map (fun x => Effect.sendItemImported (g x))) = [] := by
  induction l with
  | nil => rfl
  | cons x xs ih => simpa [removals_cons_sendItemImported] using ih

theorem removals_map_removeFile (l : List String) :
    removals (l.map Effect.removeFile) = l := by
  induction l with
  | nil => rfl
  | cons p ps ih => simp [removals_cons_removeFile, ih]

theorem set_choice_ok (t : ImportTask) (hs : t.sentinel = false)
    (c : ChoiceInput) (h1 : c ≠ ChoiceInput.const CFlag.MANUAL)
    (h2 : c ≠ ChoiceInput.const CFlag.ALBUM) :
    ∃ t', t.set_choice c = Except.ok t' ∧ t'.sentinel = false := by
  cases c with
  | const k => cases k <;> simp_all [ImportTask.set_choice]
  | pair i its => simp [ImportTask.set_choice, hs]

/- Claim theorems. -/

/-- C3: for every non-sentinel task whose choice has been set (the stored
flag is one of the four values `set_choice` can record),
`should_create_album` returns `True` iff the choice is `ALBUM` or `ASIS`,
`should_write_tags` returns `True` iff the choice is `ALBUM`, and
`should_fetch_art` returns the same value as `should_write_tags`. -/
theorem choice_predicate_truth_table (t : ImportTask) (f : CFlag)
    (_hs : t.sentinel = false) (hf : t.choice_flag = some f)
    (hset : f = CFlag.SKIP ∨ f = CFlag.ASIS ∨ f = CFlag.TRACKS ∨
      f = CFlag.ALBUM) :
    t.should_create_album =
      Except.ok (decide (f = CFlag.ALBUM ∨ f = CFlag.ASIS)) ∧
    t.should_write_tags = Except.ok (decide (f = CFlag.ALBUM)) ∧
    t.should_fetch_art = t.should_write_tags := by
  rcases hset with h | h | h | h <;> subst h <;>
    simp [ImportTask.should_create_album, ImportTask.should_write_tags,
      ImportTask.should_fetch_art, hf]

/-- Witness for C3 at a concrete as-is task. -/
theorem choice_predicate_truth_table_witness :
    ({ ImportTask.init "top" (some "p") none with
        choice_flag := some CFlag.ASIS } : ImportTask).should_create_album =
      Except.ok true ∧
    ({ ImportTask.init "top" (some "p") none with
        choice_flag := some CFlag.ASIS } : ImportTask).should_write_tags =
      Except.ok false ∧
    ({ ImportTask.init "top" (some "p") none with
        choice_flag := some CFlag.ASIS } : ImportTask).should_fetch_art =
      ({ ImportTask.init "top" (some "p") none with
        choice_flag := some CFlag.ASIS } : ImportTask).should_write_tags := by
  exact choice_predicate_truth_table _ CFlag.ASIS rfl rfl
    (Or.inr (Or.inl rfl))

/-- C10: for every non-sentinel task, `set_choice` rejects the internal
`CHOICE_MANUAL` and `CHOICE_ALBUM` constants with an assertion failure;
`CHOICE_SKIP` records the flag and discards the items; `CHOICE_ASIS` and
`CHOICE_TRACKS` record the flag and keep the items; an `(info, items)` pair
records the `CHOICE_ALBUM` flag and replaces the task's items with the
pair's item sequence. -/
theorem set_choice_accepts_and_transforms (t : ImportTask)
    (hs : t.sentinel = false) :
    t.set_choice (ChoiceInput.const CFlag.MANUAL) =
      Except.error PyErr.assertionError ∧
    t.set_choice (ChoiceInput.const CFlag.ALBUM) =
      Except.error PyErr.assertionError ∧
    (∃ t', t.set_choice (ChoiceInput.const CFlag.SKIP) = Except.ok t' ∧
      t'.choice_flag = some CFlag.SKIP ∧ t'.items = none ∧
      t'.info = none) ∧
    (∃ t', t.set_choice (ChoiceInput.const CFlag.ASIS) = Except.ok t' ∧
      t'.choice_flag = some CFlag.ASIS ∧ t'.items = t.items ∧
      t'.info = none) ∧
    (∃ t', t.set_choice (ChoiceInput.const CFlag.TRACKS) = Except.ok t' ∧
      t'.choice_flag = some CFlag.TRACKS ∧ t'.items = t.items ∧
      t'.info = none) ∧
    (∀ i its, ∃ t', t.set_choice (ChoiceInput.pair i its) = Except.ok t' ∧
      t'.choice_flag = some CFlag.ALBUM ∧ t'.items = some its ∧
      t'.info = some i) := by
  refine ⟨?_, ?_, ?_, ?_, ?_, ?_⟩
  · simp [ImportTask.set_choice, hs]
  · simp [ImportTask.set_choice, hs]
  · simp [ImportTask.set_choice, hs]
  · simp [ImportTask.set_choice, hs]
  · simp [ImportTask.set_choice, hs]
  · intro i its
    simp [ImportTask.set_choice, hs]

/-- Witness for C10 at a concrete non-sentinel task. -/
theorem set_choice_accepts_and_transforms_witness :
    (ImportTask.init "top" (some "p") (some [Item.mk "x"])).set_choice
      (ChoiceInput.const CFlag.MANUAL) = Except.error PyErr.assertionError ∧
    ∃ t', (ImportTask.init "top" (some "p") (some [Item.mk "x"])).set_choice
        (ChoiceInput.const CFlag.SKIP) = Except.ok t' ∧
      t'.choice_flag = some CFlag.SKIP ∧ t'.items = none ∧ t'.info = none := by
  have h := set_choice_accepts_and_transforms
    (ImportTask.init "top" (some "p") (some [Item.mk "x"])) rfl
  exact ⟨h.1, h.2.2.1⟩

/-- C8 counterexample: re-invoking `set_choice` (and `set_match`) on a task
that already received a value does not signal a logic error — the second
invocation succeeds and silently overwrites the first. -/
theorem set_reinvocation_succeeds_counterexample :
    ∃ t1 t2 u1 u2,
      (ImportTask.init "top" (some "p") (some [Item.mk "x"])).set_choice
        (ChoiceInput.const CFlag.ASIS) = Except.ok t1 ∧
      t1.set_choice (ChoiceInput.const CFlag.SKIP) = Except.ok t2 ∧
      t2.choice_flag = some CFlag.SKIP ∧
      (ImportTask.init "top" (some "p") (some [Item.mk "x"])).set_match
        (some "a") (some "b") none none = Except.ok u1 ∧
      u1.set_match (some "c") (some "d") none none = Except.ok u2 ∧
      u2.cur_artist = some "c" := by
  exact ⟨_, _, _, _, rfl, rfl, rfl, rfl, rfl, rfl⟩

/-- C8 (amended): `set_match` and `set_choice` are not write-once — on a
non-sentinel task, re-invocation (with arguments passing the constant
assertions) always succeeds and overwrites the previously recorded value;
the only guards are the sentinel assertion and, for `set_choice`, the
`CHOICE_MANUAL`/`CHOICE_ALBUM` assertions. -/
theorem set_choice_set_match_overwrite (t : ImportTask)
    (hs : t.sentinel = false) (c1 c2 : ChoiceInput)
    (h1 : c1 ≠ ChoiceInput.const CFlag.MANUAL)
    (h2 : c1 ≠ ChoiceInput.const CFlag.ALBUM)
    (h3 : c2 ≠ ChoiceInput.const CFlag.MANUAL)
    (h4 : c2 ≠ ChoiceInput.const CFlag.ALBUM)
    (a b a2 b2 : Option String) (c c2' : Option Candidates)
    (r r2 : Option Recommendation) :
    (∃ t1 t2, t.set_choice c1 = Except.ok t1 ∧
      t1.set_choice c2 = Except.ok t2) ∧
    (∃ u1 u2, t.set_match a b c r = Except.ok u1 ∧
      u1.set_match a2 b2 c2' r2 = Except.ok u2 ∧
      u2.cur_artist = a2 ∧ u2.cur_album = b2 ∧ u2.candidates = c2' ∧
      u2.recommendation = r2) := by
  constructor
  · obtain ⟨t1, ht1, hs1⟩ := set_choice_ok t hs c1 h1 h2
    obtain ⟨t2, ht2, _⟩ := set_choice_ok t1 hs1 c2 h3 h4
    exact ⟨t1, t2, ht1, ht2⟩
  · refine ⟨{ t with cur_artist := a, cur_album := b, candidates := c, recommendation := r }, { t with cur_artist := a2, cur_album := b2, candidates := c2', recommendation := r2 }, ?_, ?_, rfl, rfl, rfl, rfl⟩
    · simp [ImportTask.set_match, hs]
    · simp [ImportTask.set_match, hs]

/-- Witness for the amended C8 at a concrete task and choices. -/
theorem set_choice_set_match_overwrite_witness :
    (∃ t1 t2, (ImportTask.init "w" (some "q") (some [])).set_choice
        (ChoiceInput.const CFlag.TRACKS) = Except.ok t1 ∧
      t1.set_choice (ChoiceInput.const CFlag.SKIP) = Except.ok t2) ∧
    (∃ u1 u2, (ImportTask.init "w" (some "q") (some [])).set_match
        none none none none = Except.ok u1 ∧
      u1.set_match (some "z") none none none = Except.ok u2 ∧
      u2.cur_artist = some "z" ∧ u2.cur_album = none ∧ u2.candidates = none ∧
      u2.recommendation = none) := by
  exact set_choice_set_match_overwrite (ImportTask.init "w" (some "q") (some []))
    rfl (ChoiceInput.const CFlag.TRACKS) (ChoiceInput.const CFlag.SKIP)
    (by simp) (by simp) (by simp) (by simp) none none (some "z") none none
    none none none

/-- C9 counterexample: reading a corrupt state file is not treated as empty
progress — `pickle.load`'s failure is not an `IOError`, so `progress_get`
propagates it instead of returning absent. -/
theorem progress_get_corrupt_raises :
    progress_get StateFile.corrupt "root" =
      Except.error PyErr.unpicklingError := rfl

/-- C9 (amended): a missing state file reads as empty progress (get returns
absent), while a corrupt one raises; and `progress_set(root, absent)` on a
readable-or-missing state file removes the root's entry, so a subsequent
get for that root returns absent. -/
theorem progress_missing_empty_and_clear (r : String) (file : StateFile)
    (hfile : file = StateFile.missing ∨ ∃ m, file = StateFile.withMap m) :
    progress_get StateFile.missing r = Except.ok none ∧
    ∃ f', progress_set file r none = Except.ok f' ∧
      progress_get f' r = Except.ok none := by
  refine ⟨rfl, ?_⟩
  rcases hfile with h | ⟨m, h⟩ <;> subst h
  · exact ⟨StateFile.withMap (mapErase [] r), rfl,
      by simp [progress_get, lookup_mapErase]⟩
  · exact ⟨StateFile.withMap (mapErase m r), rfl,
      by simp [progress_get, lookup_mapErase]⟩

/-- Witness for the amended C9 at a concrete recorded mapping. -/
theorem progress_missing_empty_and_clear_witness :
    progress_get StateFile.missing "r" = Except.ok none ∧
    ∃ f', progress_set (StateFile.withMap [("r", "p")]) "r" none =
        Except.ok f' ∧ progress_get f' "r" = Except.ok none := by
  exact progress_missing_empty_and_clear "r"
    (StateFile.withMap [("r", "p")]) (Or.inr ⟨[("r", "p")], rfl⟩)

/-- C5: the match stage passes sentinel tasks through unmodified; for a
non-sentinel task it records the engine's `(cur_artist, cur_album,
candidates, rec)` result on success, and on an engine failure records a
null match — all four fields absent — instead of propagating the failure. -/
theorem match_stage_records_or_nulls
    (engine : Option (List Item) → Except Unit MatchResult)
    (task : ImportTask) :
    (task.sentinel = true →
      initial_lookup_step engine task = Except.ok task) ∧
    (task.sentinel = false →
      (∀ e : Unit, engine task.items = Except.error e →
        ∃ t', initial_lookup_step engine task = Except.ok t' ∧
          t'.cur_artist = none ∧ t'.cur_album = none ∧
          t'.candidates = none ∧ t'.recommendation = none) ∧
      (∀ a b c r, engine task.items = Except.ok (a, b, c, r) →
        ∃ t', initial_lookup_step engine task = Except.ok t' ∧
          t'.cur_artist = a ∧ t'.cur_album = b ∧ t'.candidates = c ∧
          t'.recommendation = r)) := by
  constructor
  · intro h
    simp [initial_lookup_step, h]
  · intro h
    constructor
    · intro e he
      simp [initial_lookup_step, h, he, ImportTask.set_null_match,
        ImportTask.set_match]
    · intro a b c r he
      simp [initial_lookup_step, h, he, ImportTask.set_match]

/-- Witness for C5: a failing engine still yields a task, with a null
match recorded. -/
theorem match_stage_records_or_nulls_witness :
    ∃ t', initial_lookup_step (fun _ => Except.error ())
        (ImportTask.init "top" (some "p") (some [Item.mk "x"])) =
      Except.ok t' ∧ t'.cur_artist = none ∧ t'.cur_album = none ∧
      t'.candidates = none ∧ t'.recommendation = none := by
  exact ((match_stage_records_or_nulls (fun _ => Except.error ())
    (ImportTask.init "top" (some "p") (some [Item.mk "x"]))).2 rfl).1 () rfl

/-- C4: with a recorded progress subpath P for root R and the
always-resume policy, the scanner discards every walked directory up to and
including the first whose path equals P (P itself is not re-yielded),
yields the remaining directories in walk order, and ends with exactly one
sentinel task for R. -/
theorem resume_skips_through_recorded_subpath (isdir : String → Bool)
    (walk : String → List (String × List Item)) (ask : String → Bool)
    (R P : String) (hdir : isdir R = true) (hP : P ≠ "")
    (hmem : P ∈ (walk R).map Prod.fst) :
    ∃ tasks,
      read_albums isdir walk ask (StateFile.withMap [(R, P)]) [R]
        (some true) = Except.ok (tasks, StateFile.withMap [(R, P)]) ∧
      tasks =
        ((walk R).drop
            ((walk R).findIdx (fun d => decide (d.1 = P)) + 1)).map
          (fun d => ImportTask.init R (some d.1) (some d.2)) ++
        [ImportTask.done_sentinel R] ∧
      tasks.filter (fun t => t.sentinel) = [ImportTask.done_sentinel R] := by
  have hbuild : buildResume (some true) ask [R]
      (StateFile.withMap [(R, P)]) =
      Except.ok ([(R, P)], StateFile.withMap [(R, P)]) := by
    simp [buildResume, resolveResume, progress_get, List.lookup, optTruthy,
      hP, except_bind_ok]
  have hfilter : ∀ (l : List (String × List Item)),
      (l.map (fun d => ImportTask.init R (some d.1) (some d.2))).filter
        (fun t => t.sentinel) = [] := by
    intro l
    induction l with
    | nil => rfl
    | cons d rest ih => simpa [ImportTask.init] using ih
  refine ⟨_, ?_, rfl, ?_⟩
  · simp [read_albums, hdir, hbuild, List.lookup,
      fastForward_eq_drop P hP (walk R) hmem, except_bind_ok]
  · rw [List.filter_append, hfilter]
    rfl

/-- Witness for C4: resuming at "p" skips "d1" and "p", yields "d2", then
the root's single sentinel. -/
theorem resume_skips_through_recorded_subpath_witness :
    ∃ tasks,
      read_albums (fun _ => true)
        (fun _ => [("d1", []), ("p", []), ("d2", [])]) (fun _ => false)
        (StateFile.withMap [("r", "p")]) ["r"] (some true) =
        Except.ok (tasks, StateFile.withMap [("r", "p")]) ∧
      tasks = [ImportTask.init "r" (some "d2") (some []),
        ImportTask.done_sentinel "r"] ∧
      tasks.filter (fun t => t.sentinel) = [ImportTask.done_sentinel "r"] := by
  obtain ⟨tasks, h1, h2, h3⟩ := resume_skips_through_recorded_subpath
    (fun _ => true) (fun _ => [("d1", []), ("p", []), ("d2", [])])
    (fun _ => false) "r" "p" rfl (by decide) (by decide)
  refine ⟨tasks, h1, ?_, h3⟩
  rw [h2]
  rfl

/-- C7 counterexample: with subpath "p" recorded for root "r", running the
scanner under the never-resume policy leaves the stored progress in place —
the final state file still maps "r" to "p" (the claim says it is cleared) —
even though scanning does start from the top. -/
theorem never_resume_keeps_progress_counterexample :
    read_albums (fun _ => true)
      (fun _ => [("d1", []), ("p", []), ("d2", [])]) (fun _ => false)
      (StateFile.withMap [("r", "p")]) ["r"] (some false) =
      Except.ok ([ImportTask.init "r" (some "d1") (some []),
        ImportTask.init "r" (some "p") (some []),
        ImportTask.init "r" (some "d2") (some []),
        ImportTask.done_sentinel "r"], StateFile.withMap [("r", "p")]) ∧
    progress_get (StateFile.withMap [("r", "p")]) "r" =
      Except.ok (some "p") := by
  exact ⟨rfl, rfl⟩

/-- C7 (amended): under the never-resume policy the scanner ignores any
recorded progress and scans every root from the top, with no
fast-forwarding — but it leaves the stored progress untouched; clearing
happens only when the ask-user policy is declined. -/
theorem never_resume_starts_from_top (isdir : String → Bool)
    (walk : String → List (String × List Item)) (ask : String → Bool)
    (file : StateFile) (paths : List String)
    (hdirs : paths.all isdir = true) :
    read_albums isdir walk ask file paths (some false) =
      Except.ok (paths.flatMap (fun top =>
        (walk top).map
          (fun d => ImportTask.init top (some d.1) (some d.2)) ++
        [ImportTask.done_sentinel top]), file) := by
  simp [read_albums, hdirs, fastForward_nil_resume]

/-- Witness for the amended C7 at a concrete root with recorded progress. -/
theorem never_resume_starts_from_top_witness :
    read_albums (fun _ => true) (fun _ => [("d1", [])]) (fun _ => false)
      (StateFile.withMap [("r", "p")]) ["r"] (some false) =
      Except.ok ([ImportTask.init "r" (some "d1") (some []),
        ImportTask.done_sentinel "r"], StateFile.withMap [("r", "p")]) := by
  exact never_resume_starts_from_top (fun _ => true) (fun _ => [("d1", [])])
    (fun _ => false) (StateFile.withMap [("r", "p")]) ["r"] rfl

/-- C2: for a non-sentinel task whose choice is `CHOICE_ASIS` or a resolved
`(info, items)` match, if the resulting (artist, album) pair matches an
existing album by that artist (case-sensitive equality on the album title),
the decision stage overrides the choice to `CHOICE_SKIP`; when the
resulting artist is absent, no suppression occurs — the originally recorded
choice stands, whatever the album title. -/
theorem decision_duplicate_suppression (lib : Library) (task : ImportTask)
    (hs : task.sentinel = false) :
    (∀ a, task.cur_artist = some a →
      (∃ cand ∈ lib, cand.artist = a ∧ some cand.album = task.cur_album) →
      ∃ t', user_query_step lib task (ChoiceInput.const CFlag.ASIS) =
        Except.ok t' ∧ t'.choice_flag = some CFlag.SKIP ∧
        t'.items = none) ∧
    (∀ i its a, i.artist = some a →
      (∃ cand ∈ lib, cand.artist = a ∧ some cand.album = i.album) →
      ∃ t', user_query_step lib task (ChoiceInput.pair i its) =
        Except.ok t' ∧ t'.choice_flag = some CFlag.SKIP) ∧
    (task.cur_artist = none →
      ∃ t', user_query_step lib task (ChoiceInput.const CFlag.ASIS) =
        Except.ok t' ∧ t'.choice_flag = some CFlag.ASIS ∧
        t'.items = task.items) ∧
    (∀ i its, i.artist = none →
      ∃ t', user_query_step lib task (ChoiceInput.pair i its) =
        Except.ok t' ∧ t'.choice_flag = some CFlag.ALBUM ∧
        t'.items = some its) := by
  refine ⟨?_, ?_, ?_, ?_⟩
  · intro a ha hdup
    have hd : duplicate_check lib task.cur_artist task.cur_album = true := by
      rw [ha]
      exact (duplicate_check_eq_true_iff lib a task.cur_album).mpr hdup
    simp [user_query_step, hs, ImportTask.set_choice, except_bind_ok, hd]
  · intro i its a ha hdup
    have hd : duplicate_check lib i.artist i.album = true := by
      rw [ha]
      exact (duplicate_check_eq_true_iff lib a i.album).mpr hdup
    simp [user_query_step, hs, ImportTask.set_choice, except_bind_ok, hd]
  · intro ha
    simp [user_query_step, hs, ImportTask.set_choice, except_bind_ok, ha,
      duplicate_check]
  · intro i its ha
    simp [user_query_step, hs, ImportTask.set_choice, except_bind_ok, ha,
      duplicate_check]

/-- Witness for C2: an as-is duplicate of an existing (X, Y) album is
downgraded to skip. -/
theorem decision_duplicate_suppression_witness :
    ∃ t', user_query_step [LibAlbum.mk "X" "Y"]
        { ImportTask.init "top" (some "p") (some [Item.mk "x"]) with
          cur_artist := some "X", cur_album := some "Y" }
        (ChoiceInput.const CFlag.ASIS) = Except.ok t' ∧
      t'.choice_flag = some CFlag.SKIP ∧ t'.items = none := by
  exact (decision_duplicate_suppression [LibAlbum.mk "X" "Y"]
    { ImportTask.init "top" (some "p") (some [Item.mk "x"]) with
      cur_artist := some "X", cur_album := some "Y" } rfl).1 "X" rfl
    ⟨LibAlbum.mk "X" "Y", List.mem_singleton_self _, rfl, rfl⟩

/-- C6 is a code bug in its sentinel half: the fast-path guard (importer.py
line 350) evaluates `task.choice_flag == CHOICE_SKIP` before
`task.sentinel`, and no stage ever calls `set_choice` on a sentinel, so on
a sentinel task the read of the never-assigned `choice_flag` slot raises
`AttributeError` instead of taking the progress-checkpoint fast path the
line itself (and its comment) intends. A Skip task, whose flag is
assigned, does take the fast path: only the progress checkpoint is
performed when progress tracking is enabled, and nothing at all
otherwise. -/
theorem commit_fast_path_sentinel_attribute_error :
    apply_choices_step (CommitCfg.mk true true true true true)
      (CommitExt.mk (fun _ i => i) id (fun _ => none))
      (ImportTask.done_sentinel "root") =
      Except.error PyErr.attributeError ∧
    (∃ t1, (ImportTask.init "root" (some "sub")
        (some [Item.mk "a"])).set_choice (ChoiceInput.const CFlag.SKIP) =
        Except.ok t1 ∧
      apply_choices_step (CommitCfg.mk true true true true true)
        (CommitExt.mk (fun _ i => i) id (fun _ => none)) t1 =
        Except.ok [Effect.saveProgress "root" (some "sub")] ∧
      apply_choices_step (CommitCfg.mk true true true true false)
        (CommitExt.mk (fun _ i => i) id (fun _ => none)) t1 =
        Except.ok []) := by
  exact ⟨rfl, _, rfl, rfl, rfl⟩

set_option maxHeartbeats 2000000 in
theorem apply_choices_removals (cfg : CommitCfg) (ext : CommitExt)
    (t : ImportTask) (f : CFlag) (items : List Item)
    (hcopy : cfg.copy = true) (hdel : cfg.delete = true)
    (hs : t.sentinel = false) (hf : t.choice_flag = some f)
    (hfs : f = CFlag.ASIS ∨ f = CFlag.TRACKS ∨ f = CFlag.ALBUM)
    (hitems : t.items = some items) :
    ∃ es, apply_choices_step cfg ext t = Except.ok es ∧
      removals es =
        (items.map (fun i => ext.realpath i.path)).filter
          (fun p => decide (p ∉
            (items.map (ext.moveItem
                (decide (f = CFlag.ALBUM ∨ f = CFlag.ASIS)))).map
              (fun i => ext.realpath i.path))) := by
  obtain ⟨top, pa, its, sen, ca1, ca2, cand, re, cf, info⟩ := t
  simp only at hs hf hitems
  subst hs hf hitems
  obtain ⟨c, w, a, d, pr⟩ := cfg
  simp only at hcopy hdel
  subst hcopy hdel
  rcases hfs with h | h | h <;> subst h <;>
    cases w <;> cases a <;> cases pr <;>
    rcases h4 : ext.artForAlbum info with _ | ap <;>
    simp [apply_choices_step, ImportTask.should_write_tags,
      ImportTask.should_create_album, ImportTask.should_infer_aa,
      ImportTask.should_fetch_art, except_bind_ok, h4,
      removals_append, removals_nil, removals_flatMap,
      removals_cons_applyMetadata, removals_cons_moveFile,
      removals_cons_writeTags, removals_cons_addAlbum,
      removals_cons_addItem, removals_cons_setArt, removals_cons_saveLib,
      removals_cons_sendAlbumImported, removals_cons_sendItemImported,
      removals_cons_saveProgress, removals_cons_removeFile,
      removals_map_addItem, removals_map_sendItemImported,
      removals_map_removeFile, flatMap_const_nil, Function.comp_def]

/-- C1 counterexample: two items that exchange paths during the move both
change real path (M = N = 2), yet neither pre-move original is removed —
each old path is still among the post-move real paths — so "exactly the M
moved originals are removed" fails on the code. -/
theorem delete_after_move_swap_counterexample :
    ∃ t1 es,
      (ImportTask.init "root" (some "sub")
        (some [Item.mk "a", Item.mk "b"])).set_choice
          (ChoiceInput.const CFlag.ASIS) = Except.ok t1 ∧
      apply_choices_step (CommitCfg.mk true false false true false)
        (CommitExt.mk
          (fun _ i => if i.path = "a" then Item.mk "b" else Item.mk "a") id
          (fun _ => none)) t1 = Except.ok es ∧
      ([Item.mk "a", Item.mk "b"].map (fun i => id i.path) = ["a", "b"] ∧
       [Item.mk "a", Item.mk "b"].map (fun i =>
         id ((fun (i : Item) =>
           if i.path = "a" then Item.mk "b" else Item.mk "a") i).path) =
         ["b", "a"]) ∧
      removals es = [] := by
  exact ⟨_, _, rfl, rfl, ⟨rfl, rfl⟩, rfl⟩

/-- C1 (amended): with copy and delete both enabled, a committing task
removes exactly those pre-move originals whose resolved real path is no
longer among the items' post-move real paths. Hence every item whose real
path is unchanged (e.g. destination equals source) is preserved, every
removed path is a moved original, and — provided no moved original's
pre-move real path coincides with any item's post-move real path — every
moved original is removed, i.e. exactly the M moved originals. (Without
that proviso the claim fails: see the swap counterexample.) -/
theorem delete_after_move_realpath_diff (cfg : CommitCfg) (ext : CommitExt)
    (t : ImportTask) (f : CFlag) (items : List Item)
    (hcopy : cfg.copy = true) (hdel : cfg.delete = true)
    (hs : t.sentinel = false) (hf : t.choice_flag = some f)
    (hfs : f = CFlag.ASIS ∨ f = CFlag.TRACKS ∨ f = CFlag.ALBUM)
    (hitems : t.items = some items) (ca : Bool)
    (hca : ca = decide (f = CFlag.ALBUM ∨ f = CFlag.ASIS)) :
    ∃ es, apply_choices_step cfg ext t = Except.ok es ∧
      (∀ p, p ∈ removals es ↔
        p ∈ items.map (fun i => ext.realpath i.path) ∧
        p ∉ (items.map (ext.moveItem ca)).map
          (fun i => ext.realpath i.path)) ∧
      (∀ i ∈ items,
        ext.realpath i.path = ext.realpath (ext.moveItem ca i).path →
        ext.realpath i.path ∉ removals es) ∧
      ((∀ i ∈ items, ∀ j ∈ items,
          ext.realpath i.path ≠ ext.realpath (ext.moveItem ca i).path →
          ext.realpath i.path ≠ ext.realpath (ext.moveItem ca j).path) →
        ∀ i ∈ items,
          ext.realpath i.path ≠ ext.realpath (ext.moveItem ca i).path →
          ext.realpath i.path ∈ removals es) := by
  subst hca
  obtain ⟨es, hes, hrem⟩ :=
    apply_choices_removals cfg ext t f items hcopy hdel hs hf hfs hitems
  refine ⟨es, hes, ?_, ?_, ?_⟩
  · intro p
    rw [hrem, List.mem_filter]
    constructor
    · rintro ⟨h1, h2⟩
      exact ⟨h1, of_decide_eq_true h2⟩
    · rintro ⟨h1, h2⟩
      exact ⟨h1, decide_eq_true h2⟩
  · intro i hi heq hmem
    rw [hrem] at hmem
    have h2 : (ext.realpath i.path) ∉
        (items.map (ext.moveItem
          (decide (f = CFlag.ALBUM ∨ f = CFlag.ASIS)))).map
          (fun i => ext.realpath i.path) :=
      of_decide_eq_true (List.mem_filter.mp hmem).2
    have h3 : ext.realpath (ext.moveItem
        (decide (f = CFlag.ALBUM ∨ f = CFlag.ASIS)) i).path ∈
        (items.map (ext.moveItem
          (decide (f = CFlag.ALBUM ∨ f = CFlag.ASIS)))).map
          (fun i => ext.realpath i.path) :=
      List.mem_map_of_mem _ (List.mem_map_of_mem _ hi)
    rw [← heq] at h3
    exact h2 h3
  · intro hdisj i hi hne
    rw [hrem]
    refine List.mem_filter.mpr ⟨List.mem_map_of_mem _ hi, decide_eq_true ?_⟩
    intro hmem
    rcases List.mem_map.mp hmem with ⟨m, hm, hmeq⟩
    rcases List.mem_map.mp hm with ⟨j, hj, rfl⟩
    exact hdisj i hi j hj hne hmeq.symm

/-- Witness for the amended C1: item "a" moves to "c" and its original is
removed; item "b" stays in place and is preserved. -/
theorem delete_after_move_realpath_diff_witness :
    ∃ es, apply_choices_step (CommitCfg.mk true false false true false)
        (CommitExt.mk (fun _ i => if i.path = "a" then Item.mk "c" else i) id
          (fun _ => none))
        { ImportTask.init "root" (some "sub")
            (some [Item.mk "a", Item.mk "b"]) with
          choice_flag := some CFlag.TRACKS } = Except.ok es ∧
      "a" ∈ removals es ∧ "b" ∉ removals es := by
  obtain ⟨es, hes, hiff, hpres, hcompl⟩ :=
    delete_after_move_realpath_diff (CommitCfg.mk true false false true false)
      (CommitExt.mk (fun _ i => if i.path = "a" then Item.mk "c" else i) id
        (fun _ => none))
      { ImportTask.init "root" (some "sub")
          (some [Item.mk "a", Item.mk "b"]) with
        choice_flag := some CFlag.TRACKS }
      CFlag.TRACKS [Item.mk "a", Item.mk "b"] rfl rfl rfl rfl
      (Or.inr (Or.inl rfl)) rfl false rfl
  refine ⟨es, hes, ?_, ?_⟩
  · exact hcompl (by decide) (Item.mk "a") (by decide) (by decide)
  · exact hpres (Item.mk "b") (by decide) rfl

end Beets
